import Mathlib

/-!
# Verification of the orderlines KPI analysis pipeline

A shallow embedding of `src/analysis_kpi.py`: an interactive tool that
uploads a table of order lines, resolves a date column, filters rows,
slices two date periods, aggregates ~10 business metrics per period,
compares them, and renders a daily time series.

Modelling conventions:
* A dataframe is a `List Row`; a `Row` carries the columns the metric
  computations read (`Quantity`, `PricePerUnit`, `MarginPerUnit`,
  `CustomerId`) together with the resolved date `CreatedDate` (an `Int`
  ordinal day, since all comparisons in the source are at date
  granularity).
* Numeric values are `ℚ`.  Python float results that can be NaN
  (pandas `.mean()` of an empty series, and `sum / len` when `len = 0`)
  are modelled as `Option ℚ`, with `none` standing for NaN/undefined.
* The user-chosen filter column is a projection `Row → ℕ` and the chosen
  values a `List ℕ` (`st.multiselect` returns a list; the empty list is
  falsy in Python, so no filtering happens then).
* The Streamlit control flow (`st.stop`) is modelled by the sum type
  `RunResult`: the pipeline either halts with an informational message,
  halts with an error message, or produces the full output record.
-/

/-- One order line, with the resolved date column already parsed.
Mirrors the columns read by `src/analysis_kpi.py`. -/
structure Row where
  createdDate : Int
  quantity : ℚ
  pricePerUnit : ℚ
  marginPerUnit : ℚ
  customerId : ℕ
deriving DecidableEq

/-- An uploaded table: its column names (used by the date resolver) and
its rows (used by everything downstream). -/
structure Table where
  cols : List String
  rows : List Row
deriving DecidableEq

/-- `possible_date_columns` from line 22 of the source. -/
def possible_date_columns : List String :=
  ["CreatedDate", "OrderDate", "Date", "InvoiceCreationDate", "InvoiceDate", "Datum"]

/-- `date_column = next((c for c in possible_date_columns if c in df.columns), None)`
(line 23 of the source). -/
def date_column (cols : List String) : Option String :=
  possible_date_columns.find? (fun c => cols.contains c)

/-- The optional equality-set filter (lines 35–41 of the source):
`if selected_vals: df = df[df[chosen_col].isin(selected_vals)]`.
An empty selection is falsy in Python, so the dataframe is left unchanged. -/
def filterRows (col : Row → ℕ) (vals : List ℕ) (df : List Row) : List Row :=
  if vals = [] then df else df.filter (fun r => vals.contains (col r))

/-- Period slicing (lines 53–56 of the source):
`df[(df['CreatedDate'] >= start) & (df['CreatedDate'] <= end)]`. -/
def df_period (s e : Int) (df : List Row) : List Row :=
  df.filter (fun r => s ≤ r.createdDate && r.createdDate ≤ e)

/-- `(df['Quantity'] * df['PricePerUnit']).sum()` (lines 59, 63). -/
def total_revenue (df : List Row) : ℚ :=
  (df.map (fun r => r.quantity * r.pricePerUnit)).sum

/-- `(df['Quantity'] * df['MarginPerUnit']).sum()` (lines 60, 64). -/
def total_margin (df : List Row) : ℚ :=
  (df.map (fun r => r.quantity * r.marginPerUnit)).sum

/-- `df['Quantity'].sum()` (lines 61, 65). -/
def total_quantity (df : List Row) : ℚ :=
  (df.map (fun r => r.quantity)).sum

/-- pandas `Series.mean()`: the mean of a nonempty series, NaN (here
`none`) on an empty series. -/
def seriesMean (xs : List ℚ) : Option ℚ :=
  if xs = [] then none else some (xs.sum / (xs.length : ℚ))

/-- `df['MarginPerUnit'].mean()` (lines 68, 74): NaN on an empty slice. -/
def avg_margin_per_unit (df : List Row) : Option ℚ :=
  seriesMean (df.map (fun r => r.marginPerUnit))

/-- `df['PricePerUnit'].mean()` (lines 69, 75): NaN on an empty slice. -/
def avg_revenue_per_unit (df : List Row) : Option ℚ :=
  seriesMean (df.map (fun r => r.pricePerUnit))

/-- `(df['Quantity'] * df['MarginPerUnit']).sum() / len(df)` (lines 70, 76):
an unguarded division, NaN (`none`) when `len(df) = 0`. -/
def avg_margin_per_orderline (df : List Row) : Option ℚ :=
  if df.length = 0 then none else some (total_margin df / (df.length : ℚ))

/-- `(df['Quantity'] * df['PricePerUnit']).sum() / len(df)` (lines 71, 77):
an unguarded division, NaN (`none`) when `len(df) = 0`. -/
def avg_revenue_per_orderline (df : List Row) : Option ℚ :=
  if df.length = 0 then none else some (total_revenue df / (df.length : ℚ))

/-- `df['CustomerId'].nunique()` (lines 80–81). -/
def unique_customers (df : List Row) : ℕ :=
  (df.map (fun r => r.customerId)).dedup.length

/-- `df.groupby('CustomerId').filter(lambda x: len(x) > 1)['CustomerId'].nunique()`
(lines 85–86): the number of distinct customers appearing in more than
one row. -/
def repeat_customers (df : List Row) : ℕ :=
  ((df.map (fun r => r.customerId)).dedup.filter
    (fun c => 1 < (df.map (fun r => r.customerId)).count c)).length

/-- `rpr = (repeat_customers / unique_customers) * 100 if unique_customers != 0 else 0`
(lines 89–90). -/
def rpr (df : List Row) : ℚ :=
  if unique_customers df ≠ 0 then
    ((repeat_customers df : ℚ) / (unique_customers df : ℚ)) * 100
  else 0

/-- `total_revenue / unique_customers if unique_customers != 0 else 0`
(lines 93–94). -/
def avg_spending_per_customer (df : List Row) : ℚ :=
  if unique_customers df ≠ 0 then total_revenue df / (unique_customers df : ℚ)
  else 0

/-! ## Comparator (lines 97–109 and the comparison table, lines 121–152)

Python float subtraction and division propagate NaN, and `nan != 0` is
`True`; `osub` and `opct` reproduce this on the `Option ℚ` model. -/

/-- Float subtraction `b - a` with NaN propagation. -/
def osub (a b : Option ℚ) : Option ℚ :=
  match a, b with
  | some x, some y => some (y - x)
  | _, _ => none

/-- `(b - a) / a * 100 if a != 0 else 0` on possibly-NaN floats: a NaN
`a` compares unequal to 0 in Python, so the division runs and yields NaN. -/
def opct (a b : Option ℚ) : Option ℚ :=
  match a with
  | none => none
  | some x =>
    if x ≠ 0 then
      match b with
      | none => none
      | some y => some ((y - x) / x * 100)
    else some 0

/-- `diff_revenue = total_revenue2 - total_revenue1` (line 97). -/
def diff_revenue (df1 df2 : List Row) : ℚ := total_revenue df2 - total_revenue df1

/-- `diff_margin = total_margin2 - total_margin1` (line 98). -/
def diff_margin (df1 df2 : List Row) : ℚ := total_margin df2 - total_margin df1

/-- `diff_quantity = total_quantity2 - total_quantity1` (line 99). -/
def diff_quantity (df1 df2 : List Row) : ℚ := total_quantity df2 - total_quantity df1

/-- `diff_customers = unique_customers2 - unique_customers1` (line 100),
Python int subtraction (may be negative). -/
def diff_customers (df1 df2 : List Row) : ℚ :=
  (unique_customers df2 : ℚ) - (unique_customers df1 : ℚ)

/-- `diff_avg_spending` (line 101). -/
def diff_avg_spending (df1 df2 : List Row) : ℚ :=
  avg_spending_per_customer df2 - avg_spending_per_customer df1

/-- `diff_rpr = rpr2 - rpr1` (line 102). -/
def diff_rpr (df1 df2 : List Row) : ℚ := rpr df2 - rpr df1

/-- `pct_change_revenue` (line 104). -/
def pct_change_revenue (df1 df2 : List Row) : ℚ :=
  if total_revenue df1 ≠ 0 then diff_revenue df1 df2 / total_revenue df1 * 100 else 0

/-- `pct_change_margin` (line 105). -/
def pct_change_margin (df1 df2 : List Row) : ℚ :=
  if total_margin df1 ≠ 0 then diff_margin df1 df2 / total_margin df1 * 100 else 0

/-- `pct_change_quantity` (line 106). -/
def pct_change_quantity (df1 df2 : List Row) : ℚ :=
  if total_quantity df1 ≠ 0 then diff_quantity df1 df2 / total_quantity df1 * 100 else 0

/-- `pct_change_customers` (line 107). -/
def pct_change_customers (df1 df2 : List Row) : ℚ :=
  if (unique_customers df1 : ℚ) ≠ 0 then
    diff_customers df1 df2 / (unique_customers df1 : ℚ) * 100
  else 0

/-- `pct_change_avg_spending` (line 108). -/
def pct_change_avg_spending (df1 df2 : List Row) : ℚ :=
  if avg_spending_per_customer df1 ≠ 0 then
    diff_avg_spending df1 df2 / avg_spending_per_customer df1 * 100
  else 0

/-- `pct_change_rpr` (line 109). -/
def pct_change_rpr (df1 df2 : List Row) : ℚ :=
  if rpr df1 ≠ 0 then diff_rpr df1 df2 / rpr df1 * 100 else 0

/-- One row of the "All" comparison table (lines 122–152): metric name,
period-1 value, period-2 value, difference, percent change.  Values that
the Python code can compute as NaN are `Option ℚ` with `none` for NaN;
always-defined values are wrapped in `some`. -/
structure CompRow where
  metric : String
  period1 : Option ℚ
  period2 : Option ℚ
  difference : Option ℚ
  pctChange : Option ℚ
deriving DecidableEq

/-- The ten-row `comparison_df` of the "All" branch (lines 121–152),
column by column as the source builds it. -/
def comparison_df (df1 df2 : List Row) : List CompRow :=
  [ { metric := "Revenue", period1 := some (total_revenue df1),
      period2 := some (total_revenue df2),
      difference := some (diff_revenue df1 df2),
      pctChange := some (pct_change_revenue df1 df2) },
    { metric := "Margin", period1 := some (total_margin df1),
      period2 := some (total_margin df2),
      difference := some (diff_margin df1 df2),
      pctChange := some (pct_change_margin df1 df2) },
    { metric := "Quantity", period1 := some (total_quantity df1),
      period2 := some (total_quantity df2),
      difference := some (diff_quantity df1 df2),
      pctChange := some (pct_change_quantity df1 df2) },
    { metric := "Average Revenue per Unit",
      period1 := avg_revenue_per_unit df1, period2 := avg_revenue_per_unit df2,
      difference := osub (avg_revenue_per_unit df1) (avg_revenue_per_unit df2),
      pctChange := opct (avg_revenue_per_unit df1) (avg_revenue_per_unit df2) },
    { metric := "Average Margin per Unit",
      period1 := avg_margin_per_unit df1, period2 := avg_margin_per_unit df2,
      difference := osub (avg_margin_per_unit df1) (avg_margin_per_unit df2),
      pctChange := opct (avg_margin_per_unit df1) (avg_margin_per_unit df2) },
    { metric := "Average Revenue per Orderline",
      period1 := avg_revenue_per_orderline df1, period2 := avg_revenue_per_orderline df2,
      difference := osub (avg_revenue_per_orderline df1) (avg_revenue_per_orderline df2),
      pctChange := opct (avg_revenue_per_orderline df1) (avg_revenue_per_orderline df2) },
    { metric := "Average Margin per Orderline",
      period1 := avg_margin_per_orderline df1, period2 := avg_margin_per_orderline df2,
      difference := osub (avg_margin_per_orderline df1) (avg_margin_per_orderline df2),
      pctChange := opct (avg_margin_per_orderline df1) (avg_margin_per_orderline df2) },
    { metric := "Unique Customers",
      period1 := some (unique_customers df1 : ℚ),
      period2 := some (unique_customers df2 : ℚ),
      difference := some (diff_customers df1 df2),
      pctChange := some (pct_change_customers df1 df2) },
    { metric := "Average Spending per Customer",
      period1 := some (avg_spending_per_customer df1),
      period2 := some (avg_spending_per_customer df2),
      difference := some (diff_avg_spending df1 df2),
      pctChange := some (pct_change_avg_spending df1 df2) },
    { metric := "Repeat Purchase Rate",
      period1 := some (rpr df1), period2 := some (rpr df2),
      difference := some (diff_rpr df1 df2),
      pctChange := some (pct_change_rpr df1 df2) } ]

/-! ## Time-series renderer (`plot_timeseries`, lines 227–280) -/

/-- The derived per-row quantity `MetricSeries` (lines 230–235). -/
def metric_series (metric : String) (r : Row) : ℚ :=
  if metric = "Revenue" then r.quantity * r.pricePerUnit
  else if metric = "Margin" then r.quantity * r.marginPerUnit
  else r.quantity

/-- The daily sum of `MetricSeries` for one calendar day. -/
def daily_sum (metric : String) (df : List Row) (d : Int) : ℚ :=
  ((df.filter (fun r => r.createdDate = d)).map (metric_series metric)).sum

/-- Minimum of a list of dates, `none` when empty. -/
def listMin : List Int → Option Int
  | [] => none
  | a :: l => some (match listMin l with | none => a | some b => min a b)

/-- Maximum of a list of dates, `none` when empty. -/
def listMax : List Int → Option Int
  | [] => none
  | a :: l => some (match listMax l with | none => a | some b => max a b)

/-- `ts_daily` (lines 237–242): `resample("D").sum()` over the whole
filtered table produces one bin per calendar day from the minimum to the
maximum date present, a day with no rows summing to 0. -/
def ts_daily (metric : String) (df : List Row) : List (Int × ℚ) :=
  match listMin (df.map (fun r => r.createdDate)),
        listMax (df.map (fun r => r.createdDate)) with
  | some lo, some hi =>
    (List.range (hi - lo + 1).toNat).map
      (fun i : ℕ => (lo + (i : Int), daily_sum metric df (lo + (i : Int))))
  | _, _ => []

/-- Which metrics get a time-series plot (lines 274–280). -/
def plot_choices (metricChoice : String) : List String :=
  if metricChoice = "All" then ["Revenue", "Margin", "Quantity"]
  else if metricChoice = "Revenue" ∨ metricChoice = "Margin" ∨ metricChoice = "Quantity" then
    [metricChoice]
  else []

/-! ## The top-level pipeline -/

/-- All interactive inputs of one run: the uploaded file, the filter
column and chosen values, the four period boundary dates, and the metric
choice. -/
structure Inputs where
  upload : Option Table
  chosenCol : Row → ℕ
  selectedVals : List ℕ
  s1 : Int
  e1 : Int
  s2 : Int
  e2 : Int
  metricChoice : String

/-- Everything the successful pipeline computes and renders. -/
structure Output where
  filtered : List Row
  recordCount : ℕ
  period1 : List Row
  period2 : List Row
  table : List CompRow
  plots : List (String × List (Int × ℚ))
deriving DecidableEq

/-- The outcome of one run: an informational halt (`st.info` + `st.stop`,
lines 13–15), an error halt (`st.error` + `st.stop`, lines 27–29), or the
full output. -/
inductive RunResult where
  | infoHalt (msg : String)
  | errorHalt (msg : String)
  | done (out : Output)
deriving DecidableEq

/-- The whole script, top to bottom: guard on the upload, resolve the
date column, filter, slice both periods, aggregate and compare, and
compute the daily series for each plotted metric. -/
def runPipeline (inp : Inputs) : RunResult :=
  match inp.upload with
  | none => .infoHalt "Please upload a CSV to start."
  | some t =>
    match date_column t.cols with
    | none => .errorHalt "The dataset does not contain a recognized date column!"
    | some _ =>
      let filtered := filterRows inp.chosenCol inp.selectedVals t.rows
      let p1 := df_period inp.s1 inp.e1 filtered
      let p2 := df_period inp.s2 inp.e2 filtered
      .done { filtered := filtered
              recordCount := filtered.length
              period1 := p1
              period2 := p2
              table := comparison_df p1 p2
              plots := (plot_choices inp.metricChoice).map
                (fun m => (m, ts_daily m filtered)) }

/-- The plots component of a run, `none` when the run halted. -/
def plotsOf : RunResult → Option (List (String × List (Int × ℚ)))
  | .done o => some o.plots
  | _ => none

/-! ## Concrete data used by the witnesses -/

/-- The spec's worked example: two rows
`{Qty:2, Price:10, Margin:3, Cust:A}` and `{Qty:1, Price:5, Margin:1, Cust:A}`
(customer A encoded as id 0, the date is irrelevant to the aggregates). -/
def exampleRows : List Row := [⟨0, 2, 10, 3, 0⟩, ⟨0, 1, 5, 1, 0⟩]

/-- A one-row period-1 subset with revenue 20. -/
def dfW1 : List Row := [⟨0, 1, 20, 4, 0⟩]

/-- A one-row period-2 subset with revenue 5. -/
def dfW2 : List Row := [⟨0, 1, 5, 2, 1⟩]

/-- The "Revenue" row of `comparison_df dfW1 dfW2`. -/
def crW : CompRow :=
  { metric := "Revenue", period1 := some (total_revenue dfW1),
    period2 := some (total_revenue dfW2),
    difference := some (diff_revenue dfW1 dfW2),
    pctChange := some (pct_change_revenue dfW1 dfW2) }

/-- Two rows with customer ids 5 and 6, to exercise the filter. -/
def dfFilterW : List Row := [⟨0, 1, 2, 1, 5⟩, ⟨1, 1, 3, 1, 6⟩]

/-- A run with no uploaded file. -/
def inpNone : Inputs :=
  { upload := none, chosenCol := fun r => r.customerId, selectedVals := [],
    s1 := 0, e1 := 0, s2 := 0, e2 := 0, metricChoice := "All" }

/-- An uploaded table none of whose column names is a date candidate. -/
def tBad : Table := { cols := ["Foo", "Bar"], rows := [] }

/-- A run whose uploaded table has no recognized date column. -/
def inpBad : Inputs :=
  { upload := some tBad, chosenCol := fun r => r.customerId, selectedVals := [],
    s1 := 0, e1 := 0, s2 := 0, e2 := 0, metricChoice := "All" }

/-- Rows on days 0 and 2, leaving day 1 empty in the daily series. -/
def dfTs : List Row := [⟨0, 1, 2, 3, 0⟩, ⟨2, 1, 2, 3, 1⟩]

/-! ## Helper lemmas -/

/-- `List.find?` returns the first element satisfying the predicate:
every strictly earlier element fails it. -/
theorem find?_first {α : Type} (p : α → Bool) (l : List α) (c : α)
    (h : l.find? p = some c) :
    p c = true ∧ ∃ i : ℕ, l[i]? = some c ∧
      ∀ j : ℕ, j < i → ∀ x, l[j]? = some x → p x = false := by
  induction l with
  | nil => simp at h
  | cons a t ih =>
    by_cases hp : p a
    · rw [List.find?_cons_of_pos _ hp] at h
      injection h with h
      subst h
      exact ⟨hp, 0, by simp, fun j hj x _ => absurd hj (by omega)⟩
    · rw [List.find?_cons_of_neg _ hp] at h
      obtain ⟨hc, i, hi, hj⟩ := ih h
      refine ⟨hc, i + 1, by simpa using hi, ?_⟩
      intro j hj' x hx
      cases j with
      | zero =>
        simp at hx
        subst hx
        simpa using hp
      | succ j =>
        exact hj j (by omega) x (by simpa using hx)

/-- A comparison-table row whose entries are always-defined scalars
satisfies the comparator contract. -/
theorem scalar_row_ok (v1 v2 q1 q2 : ℚ) (h1 : (some v1 : Option ℚ) = some q1)
    (h2 : (some v2 : Option ℚ) = some q2) :
    (some (v2 - v1) : Option ℚ) = some (q2 - q1) ∧
    (some (if v1 ≠ 0 then (v2 - v1) / v1 * 100 else 0) : Option ℚ) =
      some (if q1 = 0 then 0 else (q2 - q1) / q1 * 100) := by
  injection h1 with e1
  injection h2 with e2
  subst e1
  subst e2
  refine ⟨rfl, ?_⟩
  by_cases h : v1 = 0 <;> simp [h]

/-- A comparison-table row built from possibly-NaN values satisfies the
comparator contract whenever both period values are defined. -/
theorem option_row_ok (a b : Option ℚ) (q1 q2 : ℚ) (h1 : a = some q1)
    (h2 : b = some q2) :
    osub a b = some (q2 - q1) ∧
    opct a b = some (if q1 = 0 then 0 else (q2 - q1) / q1 * 100) := by
  subst h1
  subst h2
  refine ⟨rfl, ?_⟩
  by_cases h : q1 = 0 <;> simp [opct, h]

/-! ## Claim theorems -/

/-- C1 counterexample: on the empty period subset the claim "each ratio
metric is computed as exactly 0" is false — `avg_revenue_per_unit` (and
the other three unguarded averages) evaluate to NaN (`none`), not 0. -/
theorem empty_period_all_zero_refuted :
    ¬ (avg_revenue_per_unit ([] : List Row) = some 0 ∧
       avg_margin_per_unit ([] : List Row) = some 0 ∧
       avg_revenue_per_orderline ([] : List Row) = some 0 ∧
       avg_margin_per_orderline ([] : List Row) = some 0 ∧
       rpr ([] : List Row) = 0 ∧
       avg_spending_per_customer ([] : List Row) = 0) := by decide

/-- C1 (amended): for the empty period subset, the two explicitly guarded
ratio metrics (`repeat_purchase_rate` and `avg_spending_per_customer`)
are exactly 0, while the four per-unit / per-orderline averages are NaN
(pandas mean of an empty series, and an unguarded `sum / len` with
`len = 0`), not 0. -/
theorem empty_period_metrics :
    rpr ([] : List Row) = 0 ∧
    avg_spending_per_customer ([] : List Row) = 0 ∧
    avg_revenue_per_unit ([] : List Row) = none ∧
    avg_margin_per_unit ([] : List Row) = none ∧
    avg_revenue_per_orderline ([] : List Row) = none ∧
    avg_margin_per_orderline ([] : List Row) = none := by decide

/-- C2: in every row of the ten-metric comparison table with period-1
value `q1` and period-2 value `q2` both defined, the reported difference
is exactly `q2 - q1` and the reported percent change is
`(q2 - q1) / q1 * 100` when `q1 ≠ 0` and `0` when `q1 = 0`. -/
theorem comparison_df_correct (df1 df2 : List Row) :
    ∀ row ∈ comparison_df df1 df2, ∀ q1 q2 : ℚ,
      row.period1 = some q1 → row.period2 = some q2 →
      row.difference = some (q2 - q1) ∧
      row.pctChange = some (if q1 = 0 then 0 else (q2 - q1) / q1 * 100) := by
  intro row hrow q1 q2 h1 h2
  simp only [comparison_df, List.mem_cons, List.not_mem_nil, or_false] at hrow
  rcases hrow with rfl | rfl | rfl | rfl | rfl | rfl | rfl | rfl | rfl | rfl <;>
    first
      | exact scalar_row_ok _ _ _ _ h1 h2
      | exact option_row_ok _ _ _ _ h1 h2

/-- C2 witness: the Revenue row of the comparison table for concrete
one-row periods with revenues 20 and 5. -/
theorem comparison_df_correct_witness :
    (crW ∈ comparison_df dfW1 dfW2 ∧ crW.period1 = some 20 ∧ crW.period2 = some 5) ∧
    crW.difference = some ((5 : ℚ) - 20) ∧
    crW.pctChange = some (if (20 : ℚ) = 0 then 0 else ((5 : ℚ) - 20) / 20 * 100) := by
  have hmem : crW ∈ comparison_df dfW1 dfW2 := List.mem_cons_self _ _
  have h1 : crW.period1 = some 20 := by
    norm_num [crW, total_revenue, dfW1]
  have h2 : crW.period2 = some 5 := by
    norm_num [crW, total_revenue, dfW2]
  exact ⟨⟨hmem, h1, h2⟩, comparison_df_correct dfW1 dfW2 crW hmem 20 5 h1 h2⟩

/-- C3: whenever at least one candidate date-column name is present, the
resolver returns a present candidate such that every candidate strictly
earlier in the fixed priority order is absent — i.e. the first present
candidate, even when several are present simultaneously. -/
theorem date_column_first (cols : List String)
    (h : ∃ c ∈ possible_date_columns, cols.contains c = true) :
    ∃ c, date_column cols = some c ∧ cols.contains c = true ∧
      ∃ i : ℕ, possible_date_columns[i]? = some c ∧
        ∀ j : ℕ, j < i → ∀ d, possible_date_columns[j]? = some d →
          cols.contains d = false := by
  obtain ⟨c0, hc0, hmem⟩ := h
  cases hfind : date_column cols with
  | none =>
    rw [date_column, List.find?_eq_none] at hfind
    exact absurd hmem (by simpa using hfind c0 hc0)
  | some c =>
    obtain ⟨hc, i, hi, hj⟩ := find?_first _ _ _ hfind
    exact ⟨c, rfl, hc, i, hi, hj⟩

/-- C3 witness: a column set containing both `OrderDate` and `Date`
(plus an unrelated name); the resolver must pick `OrderDate`. -/
theorem date_column_first_witness :
    (∃ c ∈ possible_date_columns,
        (["Foo", "OrderDate", "Date"] : List String).contains c = true) ∧
    (∃ c, date_column ["Foo", "OrderDate", "Date"] = some c ∧
      (["Foo", "OrderDate", "Date"] : List String).contains c = true ∧
      ∃ i : ℕ, possible_date_columns[i]? = some c ∧
        ∀ j : ℕ, j < i → ∀ d, possible_date_columns[j]? = some d →
          (["Foo", "OrderDate", "Date"] : List String).contains d = false) :=
  ⟨by decide, date_column_first _ (by decide)⟩

/-- C4: with no uploaded file the pipeline halts with the informational
message, and with an uploaded table having no candidate date column it
halts with the error message; in both cases no output (filtering,
slicing, aggregation, rendering) is produced. -/
theorem halting_guards :
    (∀ inp : Inputs, inp.upload = none →
        runPipeline inp = .infoHalt "Please upload a CSV to start." ∧
        ∀ out, runPipeline inp ≠ .done out) ∧
    (∀ (inp : Inputs) (t : Table), inp.upload = some t →
        (∀ c ∈ possible_date_columns, ¬ t.cols.contains c = true) →
        runPipeline inp = .errorHalt "The dataset does not contain a recognized date column!" ∧
        ∀ out, runPipeline inp ≠ .done out) := by
  constructor
  · intro inp h
    have hrun : runPipeline inp = .infoHalt "Please upload a CSV to start." := by
      unfold runPipeline
      simp only [h]
    exact ⟨hrun, fun out hc => by rw [hrun] at hc; cases hc⟩
  · intro inp t h hc
    have hd : date_column t.cols = none := by
      rw [date_column, List.find?_eq_none]
      exact hc
    have hrun : runPipeline inp =
        .errorHalt "The dataset does not contain a recognized date column!" := by
      unfold runPipeline
      simp only [h, hd]
    exact ⟨hrun, fun out hco => by rw [hrun] at hco; cases hco⟩

/-- C4 witness: a run with no upload halts informationally; a run whose
table's columns are `Foo, Bar` halts with the error message. -/
theorem halting_guards_witness :
    runPipeline inpNone = .infoHalt "Please upload a CSV to start." ∧
    runPipeline inpBad = .errorHalt "The dataset does not contain a recognized date column!" :=
  ⟨(halting_guards.1 inpNone rfl).1,
   (halting_guards.2 inpBad tBad rfl (by decide)).1⟩

/-- C5: with a non-empty chosen value set, the filter keeps exactly the
rows whose value under the chosen column is a member of the set (kept
rows satisfy membership, excluded rows fail it); with no values chosen
it keeps all rows unchanged. -/
theorem filterRows_spec (col : Row → ℕ) (vals : List ℕ) (df : List Row) :
    (vals = [] → filterRows col vals df = df) ∧
    (vals ≠ [] →
      (∀ r ∈ filterRows col vals df, r ∈ df ∧ col r ∈ vals) ∧
      (∀ r ∈ df, r ∉ filterRows col vals df → col r ∉ vals) ∧
      (∀ r, r ∈ filterRows col vals df ↔ r ∈ df ∧ col r ∈ vals)) := by
  have key : vals ≠ [] → ∀ r, r ∈ filterRows col vals df ↔ r ∈ df ∧ col r ∈ vals := by
    intro h r
    rw [filterRows, if_neg h, List.mem_filter]
    simp
  refine ⟨fun h => by simp [filterRows, h], fun h => ⟨?_, ?_, key h⟩⟩
  · intro r hr
    exact (key h r).mp hr
  · intro r hrdf hrn hcol
    exact hrn ((key h r).mpr ⟨hrdf, hcol⟩)

/-- C5 witness: filtering two concrete rows on `CustomerId` with the
empty selection (identity) and with the selection `[5]` (keeps the
customer-5 row, characterizes the customer-6 row). -/
theorem filterRows_spec_witness :
    filterRows (fun r => r.customerId) [] dfFilterW = dfFilterW ∧
    (⟨0, 1, 2, 1, 5⟩ : Row) ∈ filterRows (fun r => r.customerId) [5] dfFilterW ∧
    ((⟨1, 1, 3, 1, 6⟩ : Row) ∈ filterRows (fun r => r.customerId) [5] dfFilterW ↔
      (⟨1, 1, 3, 1, 6⟩ : Row) ∈ dfFilterW ∧ 6 ∈ ([5] : List ℕ)) :=
  ⟨(filterRows_spec (fun r => r.customerId) [] dfFilterW).1 rfl,
   (((filterRows_spec (fun r => r.customerId) [5] dfFilterW).2 (by decide)).2.2
      ⟨0, 1, 2, 1, 5⟩).mpr ⟨by decide, by decide⟩,
   ((filterRows_spec (fun r => r.customerId) [5] dfFilterW).2 (by decide)).2.2
      ⟨1, 1, 3, 1, 6⟩⟩

/-- C6: a period subset contains exactly the rows whose date lies in the
closed interval `[start, end]`; in a successful run both period subsets
are computed by that same slicing from the same filtered table; and two
period subsets may overlap. -/
theorem df_period_spec :
    (∀ (s e : Int) (df : List Row) (r : Row),
        r ∈ df_period s e df ↔ r ∈ df ∧ s ≤ r.createdDate ∧ r.createdDate ≤ e) ∧
    (∀ (inp : Inputs) (out : Output), runPipeline inp = .done out →
        out.period1 = df_period inp.s1 inp.e1 out.filtered ∧
        out.period2 = df_period inp.s2 inp.e2 out.filtered) ∧
    (∃ (s1 e1 s2 e2 : Int) (df : List Row) (r : Row),
        r ∈ df_period s1 e1 df ∧ r ∈ df_period s2 e2 df) := by
  refine ⟨?_, ?_, ?_⟩
  · intro s e df r
    rw [df_period, List.mem_filter]
    simp
  · intro inp out h
    unfold runPipeline at h
    rcases hu : inp.upload with _ | t
    · simp only [hu] at h
      simp at h
    · simp only [hu] at h
      rcases hd : date_column t.cols with _ | c
      · simp only [hd] at h
        simp at h
      · simp only [hd] at h
        injection h with h
        subst h
        exact ⟨rfl, rfl⟩
  · exact ⟨0, 1, 0, 2, [⟨0, 1, 1, 1, 0⟩], ⟨0, 1, 1, 1, 0⟩, by decide, by decide⟩

/-- C6 witness: the membership characterization evaluated on a concrete
row with date 1 in the interval `[0, 2]`. -/
theorem df_period_spec_witness :
    (⟨1, 1, 1, 1, 0⟩ : Row) ∈ df_period 0 2 [⟨1, 1, 1, 1, 0⟩, ⟨5, 1, 1, 1, 0⟩] ↔
      (⟨1, 1, 1, 1, 0⟩ : Row) ∈ ([⟨1, 1, 1, 1, 0⟩, ⟨5, 1, 1, 1, 0⟩] : List Row) ∧
      (0 : Int) ≤ 1 ∧ (1 : Int) ≤ 2 :=
  df_period_spec.1 0 2 [⟨1, 1, 1, 1, 0⟩, ⟨5, 1, 1, 1, 0⟩] ⟨1, 1, 1, 1, 0⟩

/-- C7: the spec's worked example — two rows for the same customer with
quantities 2 and 1, prices 10 and 5, margins 3 and 1 — yields
total revenue 25, total margin 7, total quantity 3, one unique customer,
one repeat customer, and a repeat purchase rate of 100. -/
theorem example_period_metrics :
    total_revenue exampleRows = 25 ∧ total_margin exampleRows = 7 ∧
    total_quantity exampleRows = 3 ∧ unique_customers exampleRows = 1 ∧
    repeat_customers exampleRows = 1 ∧ rpr exampleRows = 100 := by
  refine ⟨?_, ?_, ?_, ?_, ?_, ?_⟩ <;>
    first
      | decide
      | (norm_num [exampleRows, total_revenue, total_margin, total_quantity,
            unique_customers, repeat_customers, rpr, List.dedup, List.count,
            List.countP] <;> decide)

/-- C8: the time-series renderer sums the derived quantity
(`Quantity × PricePerUnit` for Revenue, `Quantity × MarginPerUnit` for
Margin, `Quantity` otherwise) per day; every day between the minimum and
maximum date of the filtered table appears in the series (with value 0
when no row falls on it); the series is computed from the whole filtered
table, independent of the four period bounds; and a successful run's
plots are exactly the daily series of the chosen metrics over the
filtered table. -/
theorem ts_daily_spec :
    (∀ r : Row, metric_series "Revenue" r = r.quantity * r.pricePerUnit) ∧
    (∀ r : Row, metric_series "Margin" r = r.quantity * r.marginPerUnit) ∧
    (∀ (m : String) (r : Row), m ≠ "Revenue" → m ≠ "Margin" →
        metric_series m r = r.quantity) ∧
    (∀ (m : String) (df : List Row) (lo hi d : Int),
        listMin (df.map (fun r => r.createdDate)) = some lo →
        listMax (df.map (fun r => r.createdDate)) = some hi →
        lo ≤ d → d ≤ hi →
        (d, daily_sum m df d) ∈ ts_daily m df) ∧
    (∀ (m : String) (df : List Row) (d : Int),
        (∀ r ∈ df, r.createdDate ≠ d) → daily_sum m df d = 0) ∧
    (∀ i1 i2 : Inputs, i1.upload = i2.upload → i1.chosenCol = i2.chosenCol →
        i1.selectedVals = i2.selectedVals → i1.metricChoice = i2.metricChoice →
        plotsOf (runPipeline i1) = plotsOf (runPipeline i2)) ∧
    (∀ (inp : Inputs) (out : Output), runPipeline inp = .done out →
        out.plots = (plot_choices inp.metricChoice).map
          (fun m => (m, ts_daily m out.filtered))) := by
  refine ⟨?_, ?_, ?_, ?_, ?_, ?_, ?_⟩
  · intro r
    simp [metric_series]
  · intro r
    simp [metric_series]
  · intro m r h1 h2
    simp [metric_series, h1, h2]
  · intro m df lo hi d hlo hhi h1 h2
    unfold ts_daily
    rw [hlo, hhi]
    have hd : d = lo + ((d - lo).toNat : Int) := by omega
    have hmem : (d - lo).toNat ∈ List.range (hi - lo + 1).toNat := by
      rw [List.mem_range]
      omega
    have hin := List.mem_map_of_mem
      (fun i : ℕ => (lo + (i : Int), daily_sum m df (lo + (i : Int)))) hmem
    simp only [] at hin
    rw [← hd] at hin
    exact hin
  · intro m df d h
    unfold daily_sum
    have : df.filter (fun r => decide (r.createdDate = d)) = [] := by
      rw [List.filter_eq_nil_iff]
      intro r hr
      simpa using h r hr
    rw [this]
    rfl
  · intro i1 i2 hu hc hv hm
    unfold plotsOf runPipeline
    rw [← hu, ← hc, ← hv, ← hm]
    cases hup : i1.upload with
    | none => simp only [hup]
    | some t =>
      simp only [hup]
      cases hd : date_column t.cols with
      | none => simp only [hd]
      | some c => simp only [hd]
  · intro inp out h
    unfold runPipeline at h
    rcases hu : inp.upload with _ | t
    · simp only [hu] at h
      simp at h
    · simp only [hu] at h
      rcases hd : date_column t.cols with _ | c
      · simp only [hd] at h
        simp at h
      · simp only [hd] at h
        injection h with h
        subst h
        rfl

/-- C8 witness: for rows on days 0 and 2 only, day 1 appears in the
Revenue series with sum 0 instead of being omitted. -/
theorem ts_daily_spec_witness :
    (listMin (dfTs.map (fun r => r.createdDate)) = some 0 ∧
     listMax (dfTs.map (fun r => r.createdDate)) = some 2 ∧
     (∀ r ∈ dfTs, r.createdDate ≠ 1) ∧
     daily_sum "Revenue" dfTs 1 = 0) ∧
    (1, daily_sum "Revenue" dfTs 1) ∈ ts_daily "Revenue" dfTs :=
  ⟨⟨by decide, by decide, by decide,
    ts_daily_spec.2.2.2.2.1 "Revenue" dfTs 1 (by decide)⟩,
   ts_daily_spec.2.2.2.1 "Revenue" dfTs 0 2 1 (by decide) (by decide)
     (by decide) (by decide)⟩

/-- C9: the pipeline is a pure function of its inputs — two runs with the
same upload, filter column and values, period bounds, and metric choice
produce identical results (filtered table, record count, both period
subsets, the comparison table, and all plotted daily series). -/
theorem pipeline_deterministic (i1 i2 : Inputs) (h : i1 = i2) :
    runPipeline i1 = runPipeline i2 := by rw [h]

/-- C9 witness: determinism applied to a concrete run. -/
theorem pipeline_deterministic_witness :
    runPipeline inpNone = runPipeline inpNone :=
  pipeline_deterministic inpNone inpNone rfl

/-- C10: for every period subset the number of repeat customers is at
most the number of unique customers, and the repeat purchase rate lies
in the closed interval `[0, 100]`. -/
theorem rpr_bounds (df : List Row) :
    repeat_customers df ≤ unique_customers df ∧ 0 ≤ rpr df ∧ rpr df ≤ 100 := by
  have hle : repeat_customers df ≤ unique_customers df := List.length_filter_le _ _
  refine ⟨hle, ?_, ?_⟩
  · unfold rpr
    split
    · positivity
    · norm_num
  · unfold rpr
    split
    · rename_i h
      have hu : (0 : ℚ) < (unique_customers df : ℚ) := by
        exact_mod_cast Nat.pos_of_ne_zero h
      have h1 : (repeat_customers df : ℚ) / (unique_customers df : ℚ) ≤ 1 := by
        rw [div_le_one hu]
        exact_mod_cast hle
      nlinarith [h1]
    · norm_num
